import Mathlib

/-!
Verification development for the lsst-cst repository, a convenience layer
for Rubin/LSST Science Platform notebooks.  The repository ships the
`lsst.cst` Python package: coordinate and identifier conversions
(`nearest_patch_from_ra_dec`, `psf_size_at_pixel_xy`, `data_id_to_str`,
`ids_to_str`), small data-frame utilities, a TAP-service wrapper, and
interactive plot builders.  The Python implementation itself is not part of
the exported sources (only its documentation, notebooks exercising it, and
build configuration are), so every operation below is modelled from the
spec and from the in-repository documentation of its behaviour, as marked
in the doc comments.
-/

namespace LsstCst

/-- a sky coordinate (right ascension, declination) in degrees, modelled
over the rationals. -/
structure SkyCoord where
  ra : ℚ
  dec : ℚ
deriving DecidableEq

/-- a patch of a tract: a tessellation cell identified by an integer id,
with a representative sky position (its center). -/
structure Patch where
  id : ℕ
  center : SkyCoord
deriving DecidableEq

/-- a tract of the skymap: an integer id together with its list of
patches. -/
structure Tract where
  id : ℕ
  patches : List Patch
deriving DecidableEq

/-- Modelled from the spec: the sky-tessellation ("skymap") object consumed
by the coordinate lookup is an opaque externally-defined object.  We model
it as a list of tracts together with the operations the lookup needs from
it: a decidable tract-region membership test, a strict patch-interior test
(used to decide whether a coordinate is near the edge of its patch), and
the great-circle angular distance on the sphere, kept opaque as a function
field. -/
structure SkyMap where
  tracts : List Tract
  containsT : Tract → SkyCoord → Bool
  innerP : Patch → SkyCoord → Bool
  dist : SkyCoord → SkyCoord → ℚ

/-- whether a coordinate lies inside the surveyed sky region, i.e. inside
the region of some tract of the skymap. -/
def SkyMap.insideSurvey (sm : SkyMap) (c : SkyCoord) : Bool :=
  sm.tracts.any (fun t => sm.containsT t c)

/-- a skymap is well formed when every tract carries at least one patch. -/
def SkyMap.WF (sm : SkyMap) : Prop :=
  ∀ t ∈ sm.tracts, t.patches ≠ []

/-- the great-circle nearest-patch scan: starting from a current best
candidate, walk the remaining patches and keep whichever center is strictly
closer to the query coordinate. -/
def nearestPatch (d : SkyCoord → SkyCoord → ℚ) (c : SkyCoord) :
    Patch → List Patch → Patch
  | best, [] => best
  | best, p :: ps =>
      if d c p.center < d c best.center then nearestPatch d c p ps
      else nearestPatch d c best ps

/-- Modelled from the spec: `nearest_patch_from_ra_dec` performs a
great-circle distance lookup over the sky tessellation.  It finds the tract
whose region contains the coordinate; if none does (the coordinate is
outside the surveyed region, e.g. in the northern hemisphere) the call
fails with an error.  Otherwise it returns the tract id and the id of the
nearest patch of that tract; when the coordinate is not strictly interior
to the winning patch (it lies near the patch edge) a warning is emitted,
returned here as the boolean second component, without changing the shape
of the returned value. -/
def nearest_patch_from_ra_dec (sm : SkyMap) (ra dec : ℚ) :
    Except String (ℕ × ℕ) × Bool :=
  let c : SkyCoord := ⟨ra, dec⟩
  match sm.tracts.find? (fun t => sm.containsT t c) with
  | none => (Except.error "coordinates lie outside the surveyed region", false)
  | some t =>
      match t.patches with
      | [] => (Except.error "tract has no patches", false)
      | p :: ps =>
          let best := nearestPatch sm.dist c p ps
          (Except.ok (t.id, best.id), ! sm.innerP best c)

/-- instrumented variant of the nearest-patch scan that also counts the
number of distance comparisons performed, one per remaining patch. -/
def nearestPatchSteps (d : SkyCoord → SkyCoord → ℚ) (c : SkyCoord) :
    Patch → List Patch → Patch × ℕ
  | best, [] => (best, 0)
  | best, p :: ps =>
      if d c p.center < d c best.center then
        ((nearestPatchSteps d c p ps).1, (nearestPatchSteps d c p ps).2 + 1)
      else
        ((nearestPatchSteps d c best ps).1, (nearestPatchSteps d c best ps).2 + 1)

/-- an integer pixel bounding box, as used by image objects. -/
structure Box2I where
  minX : ℤ
  minY : ℤ
  maxX : ℤ
  maxY : ℤ

/-- bounding-box containment of a pixel coordinate pair. -/
def Box2I.containsXY (b : Box2I) (x y : ℤ) : Bool :=
  decide (b.minX ≤ x ∧ x ≤ b.maxX ∧ b.minY ≤ y ∧ y ≤ b.maxY)

/-- Modelled from the spec: the PSF object attached to an image (calexp or
deepCoadd alike) is an opaque externally-defined object; we keep only the
operation the utility needs, the PSF size evaluated at a pixel position. -/
structure Psf where
  sizeAt : ℤ → ℤ → ℚ

/-- Modelled from the spec: `psf_size_at_pixel_xy` checks that the pixel
coordinate pair lies inside the image bounding box; if it does, it returns
the PSF size at that pixel, and otherwise it takes its failure branch and
returns an error.  The same code path serves calexp and deepCoadd images,
which both supply a PSF object and a bounding box. -/
def psf_size_at_pixel_xy (psf : Psf) (bbox : Box2I) (xy : ℤ × ℤ) :
    Except String ℚ :=
  if bbox.containsXY xy.1 xy.2 then Except.ok (psf.sizeAt xy.1 xy.2)
  else Except.error "pixel coordinates lie outside the image bounding box"

/-- a tabular data set: named columns and rows of rational values, the
shape the library's pandas data frames take for our purposes. -/
structure DataFrame where
  columns : List String
  rows : List (List ℚ)
deriving DecidableEq

/-- insertion of a row into a row list already sorted by the value in the
given column position. -/
def insertRow (k : ℕ) (asc : Bool) (r : List ℚ) :
    List (List ℚ) → List (List ℚ)
  | [] => [r]
  | s :: ss =>
      if (if asc then r.getD k 0 ≤ s.getD k 0 else s.getD k 0 ≤ r.getD k 0)
      then r :: s :: ss
      else s :: insertRow k asc r ss

/-- sorting of a row list by the value in the given column position. -/
def sortRows (k : ℕ) (asc : Bool) : List (List ℚ) → List (List ℚ)
  | [] => []
  | r :: rs => insertRow k asc r (sortRows k asc rs)

/-- Modelled from the spec: `sort_dataframe` returns a copy of the data
frame with its rows sorted by the values of the named sort key column
(descending by default in the library; the direction is a parameter
here).  It reads only its arguments and keeps no state. -/
def sort_dataframe (df : DataFrame) (key : String) (ascending : Bool) :
    DataFrame :=
  match df.columns.indexOf? key with
  | none => df
  | some k => { df with rows := sortRows k ascending df.rows }

/-- Modelled from the spec: `shuffle_dataframe` returns a deterministic
pseudo-random permutation of the rows driven by a fixed integer random
seed (the library samples the whole frame with a caller-supplied
`random_state` defaulting to a constant), so equal arguments always give
equal results; modelled as a rotation of the row list by the seed. -/
def shuffle_dataframe (df : DataFrame) (seed : ℕ) : DataFrame :=
  { df with rows := df.rows.rotate seed }

/-- joining of a list of strings with a comma-space separator, the way the
library renders identifier lists. -/
def joinComma : List String → String
  | [] => ""
  | [s] => s
  | s :: t :: rest => s ++ ", " ++ joinComma (t :: rest)

/-- the tail of a comma-separated rendering: every element preceded by the
comma-space separator; used to relate the library's join to the standard
`String.intercalate`. -/
def prejoinComma : List String → String
  | [] => ""
  | a :: as => ", " ++ a ++ prejoinComma as

/-- Modelled from the spec: `data_id_to_str` converts a data-identifier
dictionary such as \x7b'band', 'tract', 'patch'\x7d or \x7b'visit',
'detector', 'band'\x7d to its string rendering, each key followed by its
value, comma separated.  Dictionaries are modelled as association lists of
key and rendered value. -/
def data_id_to_str (dataId : List (String × String)) : String :=
  joinComma (dataId.map (fun kv => kv.1 ++ ": " ++ kv.2))

/-- Modelled from the spec: `ids_to_str` converts a non-empty array of
integer object identifiers to a single parenthesised string listing
exactly those identifiers, comma separated. -/
def ids_to_str (ids : List ℤ) : String :=
  "(" ++ joinComma (ids.map toString) ++ ")"

/-- spec-side rendering of an identifier list, written directly from the
spec's words: the string lists exactly the given identifiers, in order,
each rendered in decimal, separated by comma-space, inside parentheses. -/
def idsRenderingSpec (ids : List ℤ) : String :=
  "(" ++ String.intercalate ", " (ids.map toString) ++ ")"

/-- spec-side rendering of a data-identifier dictionary: every key with
its value, in order, comma separated. -/
def dataIdRenderingSpec (dataId : List (String × String)) : String :=
  String.intercalate ", " (dataId.map (fun kv => kv.1 ++ ": " ++ kv.2))

/-- an astronomical image as the plot builders consume it: a pixel
bounding box and a pixel-value function (the actual pixel grid is opaque
to the library). -/
structure ImageData where
  bbox : Box2I
  pixel : ℤ → ℤ → ℚ

/-- the interactive plot objects the library builds: one constructor per
advertised plot kind, carrying the inputs the plot displays. -/
inductive Plot where
  | interactiveImage (img : ImageData) (sources : DataFrame) (title : String)
  | datashader (xcol ycol : String) (data : DataFrame)
  | linkedBrushing (xcol ycol : String) (data : DataFrame) (hover : Bool)
  | rgbComposite (r g b : ImageData)

/-- the pair of column names a two-dimensional plot draws, when the plot
kind has one. -/
def Plot.axes : Plot → Option (String × String)
  | Plot.datashader x y _ => some (x, y)
  | Plot.linkedBrushing x y _ _ => some (x, y)
  | _ => none

/-- Modelled from the spec: column selection shared by the datashader and
linked-brushing builders.  The columns argument is optional: when no
columns are given the first two columns of the input data are used, and
when a pair of columns is given exactly those columns are used; data with
fewer than two columns and no explicit pair is rejected. -/
def selectColumns (data : DataFrame) (columns : Option (String × String)) :
    Except String (String × String) :=
  match columns with
  | some c => Except.ok c
  | none =>
      match data.columns with
      | x :: y :: _ => Except.ok (x, y)
      | _ => Except.error "data has fewer than two columns"

/-- Modelled from the spec: `create_interactive_image` builds a scatter of
the detected sources over the image, with the given title. -/
def create_interactive_image (img : ImageData) (sources : DataFrame)
    (title : String) : Plot :=
  Plot.interactiveImage img sources title

/-- Modelled from the spec: `create_datashader_plot` builds a datashader
plot of the selected pair of columns of the input data. -/
def create_datashader_plot (data : DataFrame)
    (columns : Option (String × String)) : Except String Plot :=
  (selectColumns data columns).map (fun c => Plot.datashader c.1 c.2 data)

/-- Modelled from the spec: `create_linked_plot_with_brushing` builds a
linked plot with brushing of the selected pair of columns of the input
data, with an optional hover tool. -/
def create_linked_plot_with_brushing (data : DataFrame)
    (columns : Option (String × String)) (hovertool : Bool) :
    Except String Plot :=
  (selectColumns data columns).map
    (fun c => Plot.linkedBrushing c.1 c.2 data hovertool)

/-- Modelled from the spec: `create_rgb_composite_image` builds an RGB
composite plot out of the three band images retrieved around the given
coordinate. -/
def create_rgb_composite_image (r g b : ImageData) : Plot :=
  Plot.rgbComposite r g b

/-- an ADQL query held by the TAP-service wrapper. -/
structure Query where
  adql : String
deriving DecidableEq

/-- the TAP-service wrapper object: it holds the query to run, set by the
caller before fetching. -/
structure TAPService where
  query : Option Query
deriving DecidableEq

/-- Modelled from the spec: `TAPService.fetch` forwards the configured
query to the external TAP endpoint and returns exactly the results the
endpoint produces, with no retry, caching, or backpressure logic.  The
endpoint is opaque and modelled as a function from query text to result
table; the second component records the queries actually sent to the
endpoint, in order. -/
def TAPService.fetch (endpoint : String → DataFrame) (t : TAPService) :
    Except String DataFrame × List String :=
  match t.query with
  | none => (Except.error "no query configured", [])
  | some q => (Except.ok (endpoint q.adql), [q.adql])

/-- Modelled from the spec: image and catalog retrievals are delegated to
the butler client; the butler is opaque and modelled as a function from a
dataset type and identifier to the stored item.  The second component
records the requests actually forwarded to the butler. -/
def butler_get (butler : String → String → DataFrame)
    (datasetType dataId : String) : DataFrame × List (String × String) :=
  (butler datasetType dataId, [(datasetType, dataId)])

/-- Modelled from the spec: the only externally visible state any helper
of the library touches is the plotting backend's registry of open figures,
which `remove_figure` deletes from; the library itself keeps no
module-level mutable state. -/
structure LibState where
  openFigures : List ℕ
deriving DecidableEq

/-- Modelled from the spec: `remove_figure` deletes a displayed figure,
removing it from the plotting backend's registry of open figures and
returning nothing. -/
def remove_figure (s : LibState) (fig : ℕ) : LibState :=
  { openFigures := s.openFigures.filter (fun f => f ≠ fig) }

/-- one call to a public operation of the library, carrying its
arguments (opaque external collaborators included, as values). -/
inductive Op where
  | opSortDataframe (df : DataFrame) (key : String) (ascending : Bool)
  | opShuffleDataframe (df : DataFrame) (seed : ℕ)
  | opDataIdToStr (dataId : List (String × String))
  | opIdsToStr (ids : List ℤ)
  | opRemoveFigure (fig : ℕ)
  | opNearestPatch (sm : SkyMap) (ra dec : ℚ)
  | opPsfSize (psf : Psf) (bbox : Box2I) (xy : ℤ × ℤ)
  | opCreateInteractiveImage (img : ImageData) (sources : DataFrame)
      (title : String)
  | opCreateDatashaderPlot (data : DataFrame)
      (columns : Option (String × String))
  | opCreateLinkedPlot (data : DataFrame)
      (columns : Option (String × String)) (hovertool : Bool)
  | opCreateRgbComposite (r g b : ImageData)
  | opTapFetch (endpoint : String → DataFrame) (t : TAPService)

/-- the value a public operation returns. -/
inductive Ret where
  | retDataFrame (df : DataFrame)
  | retString (s : String)
  | retUnit
  | retPatchLookup (r : Except String (ℕ × ℕ) × Bool)
  | retPsf (r : Except String ℚ)
  | retPlot (p : Plot)
  | retPlotOrError (p : Except String Plot)
  | retFetch (r : Except String DataFrame × List String)

/-- the sequential semantics of the public API: each call runs as one
function application from the current library state to a next state and a
return value. -/
def exec (s : LibState) : Op → LibState × Ret
  | Op.opSortDataframe df key asc =>
      (s, Ret.retDataFrame (sort_dataframe df key asc))
  | Op.opShuffleDataframe df seed =>
      (s, Ret.retDataFrame (shuffle_dataframe df seed))
  | Op.opDataIdToStr dataId => (s, Ret.retString (data_id_to_str dataId))
  | Op.opIdsToStr ids => (s, Ret.retString (ids_to_str ids))
  | Op.opRemoveFigure fig => (remove_figure s fig, Ret.retUnit)
  | Op.opNearestPatch sm ra dec =>
      (s, Ret.retPatchLookup (nearest_patch_from_ra_dec sm ra dec))
  | Op.opPsfSize psf bbox xy =>
      (s, Ret.retPsf (psf_size_at_pixel_xy psf bbox xy))
  | Op.opCreateInteractiveImage img sources title =>
      (s, Ret.retPlot (create_interactive_image img sources title))
  | Op.opCreateDatashaderPlot data columns =>
      (s, Ret.retPlotOrError (create_datashader_plot data columns))
  | Op.opCreateLinkedPlot data columns hovertool =>
      (s, Ret.retPlotOrError
        (create_linked_plot_with_brushing data columns hovertool))
  | Op.opCreateRgbComposite r g b =>
      (s, Ret.retPlot (create_rgb_composite_image r g b))
  | Op.opTapFetch endpoint t => (s, Ret.retFetch (t.fetch endpoint))

/-- running a sequence of public calls from a state, keeping the final
state. -/
def execList (s : LibState) : List Op → LibState
  | [] => s
  | op :: ops => execList (exec s op).1 ops

/-- the step relation of the library: a call relates a state to the
outcome `exec` computes for it. -/
def Step (s : LibState) (op : Op) (out : LibState × Ret) : Prop :=
  exec s op = out

/-- a small concrete skymap used to instantiate the generic lookup
theorems: two southern tracts with patch centers at integer coordinates,
the discrete metric standing in for the opaque angular distance, and the
patch center itself as the strict interior. -/
def demoSkyMap : SkyMap where
  tracts :=
    [⟨4431, [⟨16, ⟨55, -32⟩⟩, ⟨17, ⟨56, -33⟩⟩]⟩,
     ⟨3831, [⟨10, ⟨62, -37⟩⟩]⟩]
  containsT := fun _ c => decide (c.dec < 0)
  innerP := fun p c => decide (c = p.center)
  dist := fun a b => if a = b then 0 else 1

/-- a concrete pixel bounding box of a typical calexp. -/
def demoBox : Box2I := ⟨0, 0, 4071, 3999⟩

/-- a concrete PSF stand-in whose size varies linearly with position. -/
def demoPsf : Psf := ⟨fun x y => ((x + y : ℤ) : ℚ)⟩

/-- a concrete three-column table of sources. -/
def demoFrame : DataFrame :=
  ⟨["coord_ra", "coord_dec", "mag"], [[55, -32, 20], [56, -33, 21]]⟩

/-- a concrete opaque TAP endpoint returning the same table for every
query. -/
def demoEndpoint : String → DataFrame := fun _ => demoFrame

/-- a concrete opaque butler client returning the same table for every
request. -/
def demoButler : String → String → DataFrame := fun _ _ => demoFrame

/-- a concrete TAP-service wrapper with a configured query. -/
def demoService : TAPService := ⟨some ⟨"SELECT coord_ra, coord_dec FROM dp02"⟩⟩

/-- a concrete image value. -/
def demoImage : ImageData := ⟨demoBox, fun _ _ => 0⟩

/-- a concrete data identifier for a deepCoadd patch. -/
def demoDataId : List (String × String) :=
  [("band", "i"), ("tract", "4431"), ("patch", "17")]

/-- a concrete pair of object identifiers. -/
def demoIds : List ℤ := [1249537790362809267, 1252528461990360512]

/-- the nearest-patch scan always returns one of the candidate patches. -/
theorem nearestPatch_mem (d : SkyCoord → SkyCoord → ℚ) (c : SkyCoord) :
    ∀ (ps : List Patch) (best : Patch), nearestPatch d c best ps ∈ best :: ps := by
  intro ps
  induction ps with
  | nil => intro best; simp [nearestPatch]
  | cons p ps ih =>
      intro best
      simp only [nearestPatch]
      by_cases h : d c p.center < d c best.center
      · rw [if_pos h]
        rcases List.mem_cons.mp (ih p) with h1 | h2
        · rw [h1]; exact List.mem_cons.mpr (Or.inr (List.mem_cons_self p ps))
        · exact List.mem_cons.mpr (Or.inr (List.mem_cons.mpr (Or.inr h2)))
      · rw [if_neg h]
        rcases List.mem_cons.mp (ih best) with h1 | h2
        · rw [h1]; exact List.mem_cons_self best (p :: ps)
        · exact List.mem_cons.mpr (Or.inr (List.mem_cons.mpr (Or.inr h2)))

/-- the nearest-patch scan returns a candidate whose center minimises the
distance to the query coordinate among all candidates. -/
theorem nearestPatch_min (d : SkyCoord → SkyCoord → ℚ) (c : SkyCoord) :
    ∀ (ps : List Patch) (best : Patch), ∀ q ∈ best :: ps,
      d c (nearestPatch d c best ps).center ≤ d c q.center := by
  intro ps
  induction ps with
  | nil =>
      intro best q hq
      rcases List.mem_cons.mp hq with h1 | h2
      · rw [h1]; simp [nearestPatch]
      · cases h2
  | cons p ps ih =>
      intro best q hq
      simp only [nearestPatch]
      by_cases h : d c p.center < d c best.center
      · rw [if_pos h]
        rcases List.mem_cons.mp hq with h1 | h2
        · rw [h1]
          exact le_trans (ih p p (List.mem_cons_self p ps)) (le_of_lt h)
        · exact ih p q h2
      · rw [if_neg h]
        rcases List.mem_cons.mp hq with h1 | h2
        · rw [h1]; exact ih best best (List.mem_cons_self best ps)
        · rcases List.mem_cons.mp h2 with h3 | h4
          · rw [h3]
            exact le_trans (ih best best (List.mem_cons_self best ps))
              (not_lt.mp h)
          · exact ih best q (List.mem_cons.mpr (Or.inr h4))

/-- the instrumented scan computes the same patch as the plain scan and
performs exactly one distance comparison per candidate beyond the first. -/
theorem nearestPatchSteps_spec (d : SkyCoord → SkyCoord → ℚ) (c : SkyCoord) :
    ∀ (ps : List Patch) (best : Patch),
      (nearestPatchSteps d c best ps).1 = nearestPatch d c best ps ∧
      (nearestPatchSteps d c best ps).2 = ps.length := by
  intro ps
  induction ps with
  | nil => intro best; exact ⟨rfl, rfl⟩
  | cons p ps ih =>
      intro best
      simp only [nearestPatchSteps, nearestPatch, List.length_cons]
      by_cases h : d c p.center < d c best.center
      · rw [if_pos h, if_pos h]
        exact ⟨(ih p).1, by rw [(ih p).2]⟩
      · rw [if_neg h, if_neg h]
        exact ⟨(ih best).1, by rw [(ih best).2]⟩

/-- on a well-formed skymap, a coordinate inside the surveyed region makes
the lookup succeed with the id of a containing tract and of a
distance-minimising patch of that tract. -/
theorem nearest_patch_ok_of_inside (sm : SkyMap) (hwf : sm.WF) (ra dec : ℚ)
    (hin : sm.insideSurvey ⟨ra, dec⟩ = true) :
    ∃ t ∈ sm.tracts, sm.containsT t ⟨ra, dec⟩ = true ∧
      ∃ p ∈ t.patches,
        (∀ q ∈ t.patches,
          sm.dist ⟨ra, dec⟩ p.center ≤ sm.dist ⟨ra, dec⟩ q.center) ∧
        (nearest_patch_from_ra_dec sm ra dec).1 = Except.ok (t.id, p.id) := by
  cases hfind : sm.tracts.find? (fun t => sm.containsT t ⟨ra, dec⟩) with
  | none =>
      exfalso
      have hnone := List.find?_eq_none.mp hfind
      obtain ⟨t, hmem, hp⟩ := List.any_eq_true.mp hin
      exact absurd hp (hnone t hmem)
  | some t =>
      have hmem : t ∈ sm.tracts := List.mem_of_find?_eq_some hfind
      have hcont : sm.containsT t ⟨ra, dec⟩ = true := by
        have := List.find?_some hfind
        simpa using this
      cases hp : t.patches with
      | nil => exact absurd hp (hwf t hmem)
      | cons p ps =>
          refine ⟨t, hmem, hcont,
            nearestPatch sm.dist ⟨ra, dec⟩ p ps, ?_, ?_, ?_⟩
          · rw [hp]; exact nearestPatch_mem sm.dist ⟨ra, dec⟩ ps p
          · intro q hq
            rw [hp] at hq
            exact nearestPatch_min sm.dist ⟨ra, dec⟩ ps p q hq
          · simp [nearest_patch_from_ra_dec, hfind, hp]

/-- the library's comma join of a non-empty list is its head followed by
the separated tail. -/
theorem joinComma_cons (as : List String) :
    ∀ a, joinComma (a :: as) = a ++ prejoinComma as := by
  induction as with
  | nil => intro a; simp [joinComma, prejoinComma]
  | cons t rest ih =>
      intro a
      simp only [joinComma, prejoinComma]
      rw [ih t]
      simp [String.append_assoc]

/-- the accumulator loop of `String.intercalate` appends the separated
tail to its accumulator. -/
theorem intercalate_go_spec :
    ∀ (l : List String) (acc : String),
      String.intercalate.go acc ", " l = acc ++ prejoinComma l := by
  intro l
  induction l with
  | nil => intro acc; simp [String.intercalate.go, prejoinComma]
  | cons a as ih =>
      intro acc
      simp only [String.intercalate.go, prejoinComma]
      rw [ih]
      simp [String.append_assoc]

/-- the library's comma join agrees with the standard comma-space
intercalation. -/
theorem joinComma_eq_intercalate (l : List String) :
    joinComma l = String.intercalate ", " l := by
  cases l with
  | nil => rfl
  | cons a as =>
      rw [joinComma_cons as a]
      simp only [String.intercalate]
      rw [intercalate_go_spec]

/-- the return value of every public call is independent of the library
state it runs in. -/
theorem exec_ret_state_independent (s₁ s₂ : LibState) (op : Op) :
    (exec s₁ op).2 = (exec s₂ op).2 := by
  cases op <;> rfl

/-- column selection succeeds whenever the data has at least two columns,
whether or not an explicit pair is supplied. -/
theorem selectColumns_ok (data : DataFrame) (cols : Option (String × String))
    (h2 : 2 ≤ data.columns.length) :
    ∃ c, selectColumns data cols = Except.ok c := by
  cases cols with
  | some c => exact ⟨c, rfl⟩
  | none =>
      cases hc : data.columns with
      | nil => rw [hc] at h2; simp at h2
      | cons x t =>
          cases ht : t with
          | nil => rw [hc, ht] at h2; simp at h2
          | cons y rest => exact ⟨(x, y), by simp [selectColumns, hc, ht]⟩

/-- C1: for every sky coordinate (ra, dec), `nearest_patch_from_ra_dec`
performs a great-circle distance lookup over the sky tessellation: when
the coordinate lies inside the surveyed region it returns the tract id of
a containing tract and the patch id minimising the distance to the
coordinate among that tract's patches, and when the coordinate lies
outside the surveyed region the call fails with an error instead of
returning a patch. -/
theorem nearest_patch_lookup_classification (sm : SkyMap) (hwf : sm.WF)
    (ra dec : ℚ) :
    (sm.insideSurvey ⟨ra, dec⟩ = true →
      ∃ t ∈ sm.tracts, sm.containsT t ⟨ra, dec⟩ = true ∧
        ∃ p ∈ t.patches,
          (∀ q ∈ t.patches,
            sm.dist ⟨ra, dec⟩ p.center ≤ sm.dist ⟨ra, dec⟩ q.center) ∧
          (nearest_patch_from_ra_dec sm ra dec).1 = Except.ok (t.id, p.id)) ∧
    (sm.insideSurvey ⟨ra, dec⟩ = false →
      (nearest_patch_from_ra_dec sm ra dec).1 =
        Except.error "coordinates lie outside the surveyed region") := by
  constructor
  · exact nearest_patch_ok_of_inside sm hwf ra dec
  · intro hout
    have hfind : sm.tracts.find? (fun t => sm.containsT t ⟨ra, dec⟩) = none := by
      rw [List.find?_eq_none]
      intro x hx hpx
      have hin : sm.insideSurvey ⟨ra, dec⟩ = true := by
        unfold SkyMap.insideSurvey
        rw [List.any_eq_true]
        exact ⟨x, hx, by simpa using hpx⟩
      rw [hin] at hout
      cases hout
    simp [nearest_patch_from_ra_dec, hfind]

/-- witness for C1: on the demo skymap, the southern coordinate (55, -32)
resolves to a nearest patch and the northern coordinate (62, 35) fails. -/
theorem nearest_patch_lookup_classification_witness :
    (∃ t ∈ demoSkyMap.tracts,
      demoSkyMap.containsT t ⟨55, -32⟩ = true ∧
        ∃ p ∈ t.patches,
          (∀ q ∈ t.patches,
            demoSkyMap.dist ⟨55, -32⟩ p.center ≤
              demoSkyMap.dist ⟨55, -32⟩ q.center) ∧
          (nearest_patch_from_ra_dec demoSkyMap 55 (-32)).1 =
            Except.ok (t.id, p.id)) ∧
    (nearest_patch_from_ra_dec demoSkyMap 62 35).1 =
      Except.error "coordinates lie outside the surveyed region" :=
  ⟨(nearest_patch_lookup_classification demoSkyMap
      (by unfold SkyMap.WF; decide) 55 (-32)).1 (by decide),
   (nearest_patch_lookup_classification demoSkyMap
      (by unfold SkyMap.WF; decide) 62 35).2 (by decide)⟩

/-- C2: for every PSF object, image bounding box, and pixel coordinate
pair, `psf_size_at_pixel_xy` performs a bounding-box containment check:
when the pair is contained it returns the PSF size at that pixel, when it
is not the call takes its failure branch, and the error branch is taken
exactly when containment fails; the statement is uniform in the PSF and
bounding box, so it covers calexp and deepCoadd images alike. -/
theorem psf_size_containment (psf : Psf) (bbox : Box2I) (xy : ℤ × ℤ) :
    (bbox.containsXY xy.1 xy.2 = true →
      psf_size_at_pixel_xy psf bbox xy = Except.ok (psf.sizeAt xy.1 xy.2)) ∧
    (bbox.containsXY xy.1 xy.2 = false →
      psf_size_at_pixel_xy psf bbox xy =
        Except.error "pixel coordinates lie outside the image bounding box") ∧
    (∀ msg, psf_size_at_pixel_xy psf bbox xy = Except.error msg ↔
      bbox.containsXY xy.1 xy.2 = false ∧
        msg = "pixel coordinates lie outside the image bounding box") := by
  refine ⟨?_, ?_, ?_⟩
  · intro h; simp [psf_size_at_pixel_xy, h]
  · intro h; simp [psf_size_at_pixel_xy, h]
  · intro msg
    by_cases h : bbox.containsXY xy.1 xy.2 <;>
      simp [psf_size_at_pixel_xy, h, eq_comm]

/-- witness for C2: on the demo image, pixel (2000, 1980) is inside the
bounding box and gets a PSF size, while pixel (99999, 99999) is outside
and fails. -/
theorem psf_size_containment_witness :
    psf_size_at_pixel_xy demoPsf demoBox (2000, 1980) =
      Except.ok (demoPsf.sizeAt 2000 1980) ∧
    psf_size_at_pixel_xy demoPsf demoBox (99999, 99999) =
      Except.error "pixel coordinates lie outside the image bounding box" :=
  ⟨(psf_size_containment demoPsf demoBox (2000, 1980)).1 (by decide),
   (psf_size_containment demoPsf demoBox (99999, 99999)).2.1 (by decide)⟩

/-- C5: `nearest_patch_from_ra_dec` and `psf_size_at_pixel_xy` are total
functions of their inputs: each computation produces a unique result, and
the nearest-patch scan, the only iteration either performs, runs exactly
one bounded step per patch of the tract it scans, with no unbounded loop
or recursion. -/
theorem conversions_total_and_bounded (sm : SkyMap) (ra dec : ℚ)
    (psf : Psf) (bbox : Box2I) (xy : ℤ × ℤ) :
    (∃ r, nearest_patch_from_ra_dec sm ra dec = r) ∧
    (∃ v, psf_size_at_pixel_xy psf bbox xy = v) ∧
    (∀ (c : SkyCoord) (best : Patch) (ps : List Patch),
      (nearestPatchSteps sm.dist c best ps).1 =
        nearestPatch sm.dist c best ps ∧
      (nearestPatchSteps sm.dist c best ps).2 = ps.length) :=
  ⟨⟨nearest_patch_from_ra_dec sm ra dec, rfl⟩,
   ⟨psf_size_at_pixel_xy psf bbox xy, rfl⟩,
   fun c best ps => nearestPatchSteps_spec sm.dist c ps best⟩

/-- C9: a warning from `nearest_patch_from_ra_dec` never accompanies a
failure: whenever the coordinate is inside the surveyed region the lookup
returns a tract/patch pair whatever the warning flag says, and whenever
the warning flag is raised the returned value still has the successful
tract/patch shape. -/
theorem nearest_patch_warning_not_failure (sm : SkyMap) (hwf : sm.WF)
    (ra dec : ℚ) :
    (sm.insideSurvey ⟨ra, dec⟩ = true →
      ∃ tid pid,
        (nearest_patch_from_ra_dec sm ra dec).1 = Except.ok (tid, pid)) ∧
    ((nearest_patch_from_ra_dec sm ra dec).2 = true →
      ∃ tid pid,
        (nearest_patch_from_ra_dec sm ra dec).1 = Except.ok (tid, pid)) := by
  constructor
  · intro hin
    obtain ⟨t, _, _, p, _, _, hok⟩ :=
      nearest_patch_ok_of_inside sm hwf ra dec hin
    exact ⟨t.id, p.id, hok⟩
  · intro hw
    cases hfind : sm.tracts.find? (fun t => sm.containsT t ⟨ra, dec⟩) with
    | none => simp [nearest_patch_from_ra_dec, hfind] at hw
    | some t =>
        cases hp : t.patches with
        | nil => simp [nearest_patch_from_ra_dec, hfind, hp] at hw
        | cons p ps =>
            refine ⟨t.id, (nearestPatch sm.dist ⟨ra, dec⟩ p ps).id, ?_⟩
            simp [nearest_patch_from_ra_dec, hfind, hp]

/-- witness for C9: on the demo skymap, the coordinate (59, -36) lies
inside the surveyed region but far from every patch center, so the lookup
raises the warning flag while still returning a tract/patch pair. -/
theorem nearest_patch_warning_not_failure_witness :
    (nearest_patch_from_ra_dec demoSkyMap 59 (-36)).2 = true ∧
    ∃ tid pid,
      (nearest_patch_from_ra_dec demoSkyMap 59 (-36)).1 =
        Except.ok (tid, pid) :=
  ⟨by decide,
   (nearest_patch_warning_not_failure demoSkyMap
      (by unfold SkyMap.WF; decide) 59 (-36)).2 (by decide)⟩

/-- C3: the identifier conversions are pure string formatting:
`data_id_to_str` renders any data-identifier dictionary as its
comma-separated key-value listing, and `ids_to_str` renders any non-empty
list of integer object identifiers as the parenthesised comma-separated
listing of exactly those identifiers. -/
theorem id_conversions_pure_formatting (dataId : List (String × String))
    (ids : List ℤ) :
    data_id_to_str dataId = dataIdRenderingSpec dataId ∧
    (ids ≠ [] → ids_to_str ids = idsRenderingSpec ids) := by
  constructor
  · unfold data_id_to_str dataIdRenderingSpec
    rw [joinComma_eq_intercalate]
  · intro _
    unfold ids_to_str idsRenderingSpec
    rw [joinComma_eq_intercalate]

/-- witness for C3: the conversions agree with the spec renderings on a
concrete deepCoadd identifier and a concrete pair of object ids. -/
theorem id_conversions_pure_formatting_witness :
    demoIds ≠ [] ∧
    data_id_to_str demoDataId = dataIdRenderingSpec demoDataId ∧
    ids_to_str demoIds = idsRenderingSpec demoIds :=
  ⟨by decide,
   (id_conversions_pure_formatting demoDataId demoIds).1,
   (id_conversions_pure_formatting demoDataId demoIds).2 (by decide)⟩

/-- C4: every public helper of the library is stateless: the value a call
returns is the same in any two library states (so two calls with equal
arguments return equal results), no sequence of earlier calls changes the
result of a later call, and the data utilities leave the library state
untouched. -/
theorem library_helpers_stateless (s s₁ s₂ : LibState) (op : Op)
    (ops : List Op) (df : DataFrame) (key : String) (asc : Bool) (seed : ℕ)
    (dataId : List (String × String)) (ids : List ℤ) :
    (exec s₁ op).2 = (exec s₂ op).2 ∧
    (exec (execList s ops) op).2 = (exec s op).2 ∧
    (exec s (Op.opSortDataframe df key asc)).1 = s ∧
    (exec s (Op.opShuffleDataframe df seed)).1 = s ∧
    (exec s (Op.opDataIdToStr dataId)).1 = s ∧
    (exec s (Op.opIdsToStr ids)).1 = s :=
  ⟨exec_ret_state_independent s₁ s₂ op,
   exec_ret_state_independent (execList s ops) s op, rfl, rfl, rfl, rfl⟩

/-- C6: the data-access operations delegate instead of reimplementing:
`TAPService.fetch` forwards the configured query to the external TAP
endpoint exactly once and returns exactly the endpoint's response, and
`butler_get` forwards each retrieval to the butler client exactly once
and returns exactly what the butler produces; no retry, caching, or
backpressure appears in either call log. -/
theorem tap_and_butler_delegate (endpoint : String → DataFrame)
    (t : TAPService) (q : Query) (hq : t.query = some q)
    (butler : String → String → DataFrame) (datasetType dataIdStr : String) :
    t.fetch endpoint = (Except.ok (endpoint q.adql), [q.adql]) ∧
    butler_get butler datasetType dataIdStr =
      (butler datasetType dataIdStr, [(datasetType, dataIdStr)]) := by
  constructor
  · unfold TAPService.fetch
    rw [hq]
  · rfl

/-- witness for C6: the demo service with its configured query fetches
exactly the demo endpoint's answer to that query, logging one call. -/
theorem tap_and_butler_delegate_witness :
    demoService.fetch demoEndpoint =
      (Except.ok (demoEndpoint "SELECT coord_ra, coord_dec FROM dp02"),
        ["SELECT coord_ra, coord_dec FROM dp02"]) ∧
    butler_get demoButler "calexp" "visit 192350, detector 175, band i" =
      (demoButler "calexp" "visit 192350, detector 175, band i",
        [("calexp", "visit 192350, detector 175, band i")]) :=
  tap_and_butler_delegate demoEndpoint demoService
    ⟨"SELECT coord_ra, coord_dec FROM dp02"⟩ rfl demoButler "calexp"
    "visit 192350, detector 175, band i"

/-- C7: the library builds all four advertised interactive plot kinds:
the scatter-over-image builder and the RGB-composite builder return their
plot objects on any input, and the datashader and linked-brushing
builders return a plot object on any data with at least two columns,
whether or not a column pair is supplied. -/
theorem plot_builders_build (img r g b : ImageData) (sources data : DataFrame)
    (title : String) (cols : Option (String × String)) (hover : Bool)
    (h2 : 2 ≤ data.columns.length) :
    create_interactive_image img sources title =
      Plot.interactiveImage img sources title ∧
    create_rgb_composite_image r g b = Plot.rgbComposite r g b ∧
    (∃ p, create_datashader_plot data cols = Except.ok p) ∧
    (∃ p, create_linked_plot_with_brushing data cols hover = Except.ok p) := by
  obtain ⟨c, hc⟩ := selectColumns_ok data cols h2
  exact ⟨rfl, rfl,
    ⟨Plot.datashader c.1 c.2 data, by simp [create_datashader_plot, hc, Except.map]⟩,
    ⟨Plot.linkedBrushing c.1 c.2 data hover,
      by simp [create_linked_plot_with_brushing, hc, Except.map]⟩⟩

/-- witness for C7: on the demo table with three columns, both optional
column builders succeed, and the two total builders return their plot
objects. -/
theorem plot_builders_build_witness :
    2 ≤ demoFrame.columns.length ∧
    create_interactive_image demoImage demoFrame "patch 17" =
      Plot.interactiveImage demoImage demoFrame "patch 17" ∧
    create_rgb_composite_image demoImage demoImage demoImage =
      Plot.rgbComposite demoImage demoImage demoImage ∧
    (∃ p, create_datashader_plot demoFrame none = Except.ok p) ∧
    (∃ p, create_linked_plot_with_brushing demoFrame none true =
      Except.ok p) :=
  ⟨by decide,
   (plot_builders_build demoImage demoImage demoImage demoImage demoFrame
      demoFrame "patch 17" none true (by decide)).1,
   (plot_builders_build demoImage demoImage demoImage demoImage demoFrame
      demoFrame "patch 17" none true (by decide)).2.1,
   (plot_builders_build demoImage demoImage demoImage demoImage demoFrame
      demoFrame "patch 17" none true (by decide)).2.2.1,
   (plot_builders_build demoImage demoImage demoImage demoImage demoFrame
      demoFrame "patch 17" none true (by decide)).2.2.2⟩

/-- C8: no public operation engages in concurrent coordination: from any
library state, each public call has exactly one outcome under the step
relation, i.e. it executes as a single deterministic sequential function
application with no interleaving. -/
theorem public_ops_single_sequential_step (s : LibState) (op : Op) :
    ∃! out, Step s op out :=
  ⟨exec s op, rfl, fun _ hy => hy.symm⟩

/-- C10: for the datashader and linked-brushing builders the columns
argument is optional: with no columns the plot draws the first two
columns of the input data, and with an explicit pair it draws exactly
that pair. -/
theorem plot_columns_defaulting (data : DataFrame) (x y : String)
    (rest : List String) (hcols : data.columns = x :: y :: rest)
    (c : String × String) (hover : Bool) :
    (∃ p, create_datashader_plot data none = Except.ok p ∧
      p.axes = some (x, y)) ∧
    (∃ p, create_datashader_plot data (some c) = Except.ok p ∧
      p.axes = some c) ∧
    (∃ p, create_linked_plot_with_brushing data none hover = Except.ok p ∧
      p.axes = some (x, y)) ∧
    (∃ p, create_linked_plot_with_brushing data (some c) hover =
      Except.ok p ∧ p.axes = some c) := by
  refine
    ⟨⟨Plot.datashader x y data, ?_, rfl⟩,
     ⟨Plot.datashader c.1 c.2 data, ?_, rfl⟩,
     ⟨Plot.linkedBrushing x y data hover, ?_, rfl⟩,
     ⟨Plot.linkedBrushing c.1 c.2 data hover, ?_, rfl⟩⟩ <;>
    simp [create_datashader_plot, create_linked_plot_with_brushing,
      selectColumns, hcols, Except.map]

/-- witness for C10: on the demo table, omitting the columns draws the
first two columns (coord_ra, coord_dec) and an explicit pair draws
exactly that pair. -/
theorem plot_columns_defaulting_witness :
    demoFrame.columns = "coord_ra" :: "coord_dec" :: ["mag"] ∧
    (∃ p, create_datashader_plot demoFrame none = Except.ok p ∧
      p.axes = some ("coord_ra", "coord_dec")) ∧
    (∃ p, create_linked_plot_with_brushing demoFrame
        (some ("mag", "coord_ra")) false = Except.ok p ∧
      p.axes = some ("mag", "coord_ra")) :=
  ⟨rfl,
   (plot_columns_defaulting demoFrame "coord_ra" "coord_dec" ["mag"] rfl
      ("mag", "coord_ra") false).1,
   (plot_columns_defaulting demoFrame "coord_ra" "coord_dec" ["mag"] rfl
      ("mag", "coord_ra") false).2.2.2⟩

end LsstCst
